import Mathlib

set_option maxRecDepth 20000

/-!
Verification of the ESP32 inverter-gateway firmware (serial protocol engine,
HTTP provisioning routes, broker control-message handling, wireless FSM and
telemetry JSON builder), shallowly embedded from the MicroPython sources
`serial.py` and `main.py`.
-/

namespace DongleEsp32

/-! ## MicroPython tick arithmetic

`utime.ticks_ms` wraps at `2 ^ 30`; `ticks_add` and `ticks_diff` are the
standard modular helpers (`ticks_diff` returns a signed value in
`[-2 ^ 29, 2 ^ 29)`). -/

def TICKS_PERIOD : Nat := 2 ^ 30

def TICKS_HALF : Nat := 2 ^ 29

def ticksAdd (a d : Nat) : Nat := (a + d) % TICKS_PERIOD

def ticksDiff (a b : Nat) : Int :=
  (((a % TICKS_PERIOD + TICKS_PERIOD - b % TICKS_PERIOD) + TICKS_HALF) % TICKS_PERIOD : Int)
    - (TICKS_HALF : Int)

/-! ## Serial protocol engine: CRC helpers (`serial.py`, lines 122-161) -/

/-- Nibble lookup table of `InverterSerial._crc16_ccitt_raw`. -/
def crcTable : List Nat :=
  [0x0000, 0x1021, 0x2042, 0x3063, 0x4084, 0x50A5, 0x60C6, 0x70E7,
   0x8108, 0x9129, 0xA14A, 0xB16B, 0xC18C, 0xD1AD, 0xE1CE, 0xF1EF]

/-- One loop iteration of `_crc16_ccitt_raw` (processes one payload byte). -/
def crcStep (crc b : Nat) : Nat :=
  let da1 := ((crc >>> 8) &&& 0xFF) >>> 4
  let crc1 := ((crc <<< 4) &&& 0xFFFF) ^^^ crcTable.getD (da1 ^^^ (b >>> 4)) 0
  let da2 := ((crc1 >>> 8) &&& 0xFF) >>> 4
  ((crc1 <<< 4) &&& 0xFFFF) ^^^ crcTable.getD (da2 ^^^ (b &&& 0x0F)) 0

/-- `InverterSerial._crc16_ccitt_raw`: table-driven CRC-16/CCITT, initial
value `0x0000`, over a byte sequence. -/
def crc16_ccitt_raw (data : List Nat) : Nat :=
  (data.foldl crcStep 0x0000) &&& 0xFFFF

/-- `InverterSerial._calibrate_crc_byte`: bump a checksum byte off the three
reserved framing bytes `0x28`, `0x0D`, `0x0A`. -/
def calibrate_crc_byte (x : Nat) : Nat :=
  if x = 0x28 ∨ x = 0x0D ∨ x = 0x0A then (x + 1) &&& 0xFF else x &&& 0xFF

/-- `InverterSerial._compute_tx_crc_bytes`. -/
def compute_tx_crc_bytes (payload : List Nat) : Nat × Nat :=
  let raw := crc16_ccitt_raw payload
  (calibrate_crc_byte ((raw >>> 8) &&& 0xFF), calibrate_crc_byte (raw &&& 0xFF))

/-- `InverterSerial._verify_rx_crc`. -/
def verify_rx_crc (payload : List Nat) (recv_hi recv_lo : Nat) : Bool :=
  let raw := crc16_ccitt_raw payload
  let hi := calibrate_crc_byte ((raw >>> 8) &&& 0xFF)
  let lo := calibrate_crc_byte (raw &&& 0xFF)
  if (hi = 0 ∧ lo = 0) ∨ (recv_hi = 0 ∧ recv_lo = 0) then false
  else decide (hi = recv_hi ∧ lo = recv_lo)

/-- A 273-byte payload whose CRC-16 is `0x0D28` (both checksum bytes land on
reserved framing values and get calibrated to `0x0E`, `0x29`). -/
def collisionPayload : List Nat := List.replicate 271 0 ++ [128, 187]

/-- `collisionPayload` with bit 6 of its first byte flipped; its CRC-16 is
`0x0E29`, whose calibrated bytes coincide with those of `collisionPayload`. -/
def collisionPayloadFlipped : List Nat := 0x40 :: (List.replicate 270 0 ++ [128, 187])

/-! ## Serial protocol engine: snapshots, state and `step`
(`serial.py`, lines 22-412) -/

/-- A device/live snapshot: a string-keyed dictionary of reply strings. -/
def Snapshot : Type := String → Option String

/-- Dictionary assignment `tgt[k] = v`. -/
def snapSet (m : Snapshot) (k v : String) : Snapshot :=
  fun k' => if k' = k then some v else m k'

/-- Dictionary removal `tgt.pop(k, None)`. -/
def snapPop (m : Snapshot) (k : String) : Snapshot :=
  fun k' => if k' = k then none else m k'

/-- A sequence item: a bare wire command, or an (alias, command) pair. -/
inductive SeqItem where
  | cmd (c : String)
  | named (n c : String)
deriving DecidableEq

/-- `InverterSerial._normalize_item`: a bare command is its own alias. -/
def normalizeItem : SeqItem → String × String
  | .cmd c => (c, c)
  | .named n c => (n, c)

/-- The reply classification of `step`: `ans not in ('ERCRC', 'NAK')`. -/
def answerOk (ans : String) : Bool := !(ans == "ERCRC" || ans == "NAK")

/-- The mutable state of `InverterSerial` used by `step`. -/
structure EngineState where
  devicedata : Snapshot
  livedata : Snapshot
  request_static : Bool
  request_counter : Nat
  connection : Bool
  delay_ms : Nat
  last_at : Nat
  last_live_at : Nat
  static_seq : List SeqItem
  dynamic_seq : List SeqItem
  keep_command_keys : Bool
  custom_cmd : Option String
  custom_name : Option String
  conn_ok : Nat
  conn_fail : Nat

/-- Python truthiness of `self._custom_cmd` (`None` and `""` are falsy). -/
def customActive (s : EngineState) : Option String :=
  match s.custom_cmd with
  | some c => if c = "" then none else some c
  | none => none

/-- `alias = self._custom_name or self._custom_cmd` (Python `or`). -/
def customAlias (s : EngineState) (c : String) : String :=
  match s.custom_name with
  | some n => if n = "" then c else n
  | none => c

/-- `InverterSerial._mark_ok`. -/
def mark_ok (s : EngineState) : EngineState :=
  { s with conn_ok := s.conn_ok + 1,
           conn_fail := if s.conn_fail > 0 then s.conn_fail - 1 else s.conn_fail }

/-- `InverterSerial._mark_fail`. -/
def mark_fail (s : EngineState) : EngineState :=
  { s with conn_fail := s.conn_fail + 1 }

/-- The writes `_store_answer` performs on its target snapshot: the alias key,
the raw command key when configured and distinct, and the extra `QPIGS` key. -/
def storeWrites (keep : Bool) (name cmd ans : String) (tgt : Snapshot) : Snapshot :=
  let t1 := snapSet tgt name ans
  let t2 := if keep ∧ name ≠ cmd then snapSet t1 cmd ans else t1
  if cmd = "QPIGS" ∧ answerOk ans then snapSet t2 "QPIGS" ans else t2

/-- `InverterSerial._store_answer` (with `static` true for `group='static'`). -/
def store_answer (s : EngineState) (name cmd ans : String) (static : Bool) : EngineState :=
  if static then
    { s with devicedata := storeWrites s.keep_command_keys name cmd ans s.devicedata }
  else
    { s with livedata := storeWrites s.keep_command_keys name cmd ans s.livedata }

/-- The common tail of the non-custom branches of `step`: set `_last_at` and
recompute `connection`, return `True`. -/
def stepFinish (t : Nat) (s : EngineState) (issued : List (String × String)) :
    EngineState × Bool × List (String × String) :=
  ({ s with last_at := t, connection := decide (s.conn_fail < 10) }, true, issued)

/-- `InverterSerial.step`, instrumented: besides the updated state and the
boolean return value, the result records the (alias, command) pairs passed to
`request_data` during the step (always zero or one of them); the environment
`env` supplies the reply `request_data` returns for each command. -/
def step (t : Nat) (env : String → String) (s : EngineState) :
    EngineState × Bool × List (String × String) :=
  if ticksDiff t s.last_at < (s.delay_ms : Int) then (s, false, [])
  else
    match customActive s with
    | some c =>
      let ans := env c
      let an := customAlias s c
      let s1 :=
        if answerOk ans then
          let sa := store_answer s an c ans false
          let sb := if sa.keep_command_keys ∧ an ≠ c then
              { sa with livedata := snapPop sa.livedata c }
            else sa
          { (mark_ok sb) with last_live_at := t }
        else mark_fail s
      ({ s1 with custom_cmd := none, custom_name := none,
                 request_static := true, request_counter := 0, last_at := t },
       true, [(an, c)])
    | none =>
      if s.request_static then
        if s.request_counter < s.static_seq.length then
          let nc := normalizeItem (s.static_seq.getD s.request_counter (.cmd ""))
          let ans := env nc.2
          let s1 := if answerOk ans then mark_ok (store_answer s nc.1 nc.2 ans true)
                    else mark_fail s
          stepFinish t { s1 with request_counter := s1.request_counter + 1 } [nc]
        else
          stepFinish t { s with request_static := false, request_counter := 0 } []
      else
        if s.request_counter < s.dynamic_seq.length then
          let nc := normalizeItem (s.dynamic_seq.getD s.request_counter (.cmd ""))
          let ans := env nc.2
          let s1 := if answerOk ans then
              { (mark_ok (store_answer s nc.1 nc.2 ans false)) with last_live_at := t }
            else mark_fail s
          stepFinish t { s1 with request_counter := s1.request_counter + 1 } [nc]
        else
          stepFinish t { s with request_static := true, request_counter := 0 } []

/-- Run `step` once per entry of a list of clock readings. -/
def runSteps : List Nat → (String → String) → EngineState → EngineState
  | [], _, s => s
  | t :: ts, env, s => runSteps ts env (step t env s).1

/-- Every step of the run passes the inter-command throttle guard. -/
def allEffectiveB : List Nat → (String → String) → EngineState → Bool
  | [], _, _ => true
  | t :: ts, env, s =>
    decide ((s.delay_ms : Int) ≤ ticksDiff t s.last_at) &&
      allEffectiveB ts env (step t env s).1

/-- The command sequence of the currently active phase. -/
def activeSeq (s : EngineState) : List SeqItem :=
  if s.request_static then s.static_seq else s.dynamic_seq

/-- The (alias, command) pair the active phase issues at the current position. -/
def seqItemAt (s : EngineState) : String × String :=
  normalizeItem ((activeSeq s).getD s.request_counter (.cmd ""))

/-- The empty snapshot. -/
def emptySnap : Snapshot := fun _ => none

/-- A reply environment that answers `NAK` to every command. -/
def nakEnv : String → String := fun _ => "NAK"

/-- A small concrete engine state: static phase at position 0, one-command
static sequence, no pending custom command. -/
def ex4State : EngineState where
  devicedata := emptySnap
  livedata := emptySnap
  request_static := true
  request_counter := 0
  connection := false
  delay_ms := 150
  last_at := 0
  last_live_at := 0
  static_seq := [.cmd "QPI"]
  dynamic_seq := [.cmd "QPIGS"]
  keep_command_keys := true
  custom_cmd := none
  custom_name := none
  conn_ok := 0
  conn_fail := 0

/-- `ex4State` with a pending custom command. -/
def ex5State : EngineState :=
  { ex4State with custom_cmd := some "POP01", custom_name := some "ANSWER",
                  request_static := false, request_counter := 1 }

/-! ## HTTP server: `/wifisave` routing (`main.py`, lines 371-433) -/

/-- Python `str.strip()` on a character list. -/
def stripChars (l : List Char) : List Char :=
  ((l.dropWhile (fun ch => ch.isWhitespace)).reverse.dropWhile
    (fun ch => ch.isWhitespace)).reverse

/-- Python `str.strip()`. -/
def pyStrip (s : String) : String := String.mk (stripChars s.data)

/-- `_ctype.split(";", 1)[0].strip()`: the media type before any parameters. -/
def ctBase (ctype : String) : String :=
  pyStrip (String.mk (ctype.data.takeWhile (fun ch => ch ≠ ';')))

/-- What the header phase of `http_step` decides once the head is parsed. -/
inductive HeadAction where
  | respond (status : String)
  | readBody
deriving DecidableEq

/-- The routing chain of `http_step` (lines 371-394): the `/` and `/livejson`
routes, then the 404/405/415 checks guarding `/wifisave`. -/
def http_head_route (method path ctype : String) : HeadAction :=
  if (path = "/" ∨ path = "/index.html") ∧ (method = "GET" ∨ method = "HEAD") then
    .respond "200 OK"
  else if path = "/livejson" ∧ (method = "GET" ∨ method = "HEAD") then
    .respond "200 OK"
  else if ¬ (path = "/wifisave" ∨ path = "/wifisave/") then
    .respond "404 Not Found"
  else if method ≠ "POST" then
    .respond "405 Method Not Allowed"
  else if ¬ (ctBase ctype = "application/x-www-form-urlencoded" ∨
             ctBase ctype = "multipart/form-data") then
    .respond "415 Unsupported Media Type"
  else
    .readBody

/-- A parsed form field set (the dictionary `kv`). -/
def FieldSet : Type := String → Option String

/-- Outcome of the body phase of `http_step` for `/wifisave`: the status sent,
the credential passed to `wifi_save`, and whether `ensure_sta_after_save`
(the background connect) was triggered. -/
structure WifisaveOutcome where
  status : String
  persist : Option (String × String)
  bgConnect : Bool
deriving DecidableEq

/-- The body phase of `http_step` (lines 420-433), given the parse result
`kv` and whether the filesystem write in `wifi_save` succeeds. -/
def http_body_finish (kv : Option FieldSet) (saveOk : Bool) : WifisaveOutcome :=
  let s := match kv with
    | some m => m "s"
    | none => none
  let p := match kv with
    | some m => (m "p").getD ""
    | none => ""
  match s with
  | some sv => { status := "200 OK", persist := some (sv, p), bgConnect := saveOk }
  | none => { status := "400 Bad Request", persist := none, bgConnect := false }

/-! ## Broker control-message callback (`main.py`, lines 576-602) -/

/-- Result of `mqtt_on_msg`: the custom-request flag and deadline afterwards,
and the (alias, command) handed to `inv.send_custom` if any. -/
structure MsgResult where
  pending : Bool
  deadline : Nat
  sent : Option (String × String)
deriving DecidableEq

/-- `mqtt_on_msg`: `t` is the decoded topic, `m` the decoded payload, `ct`
the control topic (empty string when unset), `pending`/`deadline` the current
custom-request state, `tnow` the clock. -/
def mqtt_on_msg (t m ct : String) (pending : Bool) (deadline : Nat) (tnow : Nat) : MsgResult :=
  if ct = "" ∨ t ≠ ct ∨ pyStrip m = "" then
    { pending := pending, deadline := deadline, sent := none }
  else if pending then
    { pending := pending, deadline := deadline, sent := none }
  else
    { pending := true, deadline := ticksAdd tnow 5000, sent := some ("ANSWER", pyStrip m) }

/-! ## Wireless connectivity state machine (`main.py`, lines 436-519 and
657-705) -/

/-- The values of `wifi_state["mode"]`. -/
inductive WifiMode where
  | idle
  | connecting
  | connecting_ap
  | connected
  | ap
  | failed
deriving DecidableEq

/-- The wireless state touched by the FSM: mode, connect deadline, retry
timestamp, hotspot interface activity, and the broker reconnect request. -/
structure WifiState where
  mode : WifiMode
  deadline : Nat
  retry_at : Nat
  apActive : Bool
  mqttNeed : Bool
deriving DecidableEq

/-- `start_ap`: bring the hotspot up; a non-soft start also forces the mode
to hotspot-active. -/
def start_ap (soft : Bool) (st : WifiState) : WifiState :=
  { st with apActive := true, mode := if soft then st.mode else .ap }

/-- `ap_watchdog`: restart the hotspot whenever the client link is down and
the hotspot interface is inactive (soft while a foreground connect runs). -/
def ap_watchdog (connected : Bool) (st : WifiState) : WifiState :=
  if ¬ connected ∧ ¬ st.apActive then
    start_ap (decide (st.mode = .connecting)) st
  else st

/-- `start_sta` (success path): stop the hotspot, and with a nonempty network
name start a foreground connect with a 20-second deadline. -/
def start_sta (ssid : Option String) (tnow : Nat) (st : WifiState) : WifiState :=
  let st1 := { st with apActive := false }
  match ssid with
  | none => st1
  | some ss =>
    if ss = "" then st1
    else { st1 with mode := .connecting, deadline := ticksAdd tnow 20000 }

/-- `start_sta_bg` (success path): no-op while a connect is already running,
otherwise start a background connect with a 5-second deadline, leaving the
hotspot untouched. -/
def start_sta_bg (ssid : Option String) (tnow : Nat) (st : WifiState) : WifiState :=
  if st.mode = .connecting ∨ st.mode = .connecting_ap then st
  else
    match ssid with
    | none => st
    | some ss =>
      if ss = "" then st
      else { st with mode := .connecting_ap, deadline := ticksAdd tnow 5000 }

/-- Python truthiness of the saved network name `_last_ssid`. -/
def ssidTruthy : Option String → Bool
  | some ss => ss != ""
  | none => false

/-- The wireless portion of one `_scheduled` pass (`main.py`, lines 661-705):
the hotspot watchdog, the mode transitions, then the throttled background
retry. Returns the new state and whether a background connect attempt was
made by the retry block. -/
def wifi_fsm_step (connected : Bool) (tnow : Nat) (lastSsid : Option String)
    (st : WifiState) : WifiState × Bool :=
  let st0 := ap_watchdog connected st
  let st1 :=
    if st0.mode = .connecting then
      if connected then { st0 with mode := .connected, mqttNeed := true, apActive := false }
      else if ticksDiff st0.deadline tnow ≤ 0 then
        { (start_ap false st0) with mode := .ap, retry_at := ticksAdd tnow 8000 }
      else st0
    else if st0.mode = .connecting_ap then
      if connected then { st0 with mode := .connected, mqttNeed := true, apActive := false }
      else if ticksDiff st0.deadline tnow ≤ 0 then
        { st0 with mode := .ap, retry_at := ticksAdd tnow 9000 }
      else st0
    else if st0.mode = .connected ∧ ¬ connected then
      { (start_ap false st0) with mode := .ap, retry_at := ticksAdd tnow 2000 }
    else st0
  if (st1.mode = .ap ∨ st1.mode = .failed) ∧ ¬ connected ∧ ssidTruthy lastSsid then
    if 0 ≤ ticksDiff tnow st1.retry_at then
      ({ (start_sta_bg lastSsid tnow st1) with retry_at := ticksAdd tnow 10000 }, true)
    else (st1, false)
  else (st1, false)

/-- Link loss with the hotspot interface down: the watchdog preempts the
2-second reschedule. -/
def ex8Loss : WifiState :=
  { mode := .connected, deadline := 0, retry_at := 0, apActive := false, mqttNeed := false }

/-- A background connect whose deadline expired while the hotspot interface
is down: the watchdog preempts the 9-second reschedule. -/
def ex8BgExpiry : WifiState :=
  { mode := .connecting_ap, deadline := 1000, retry_at := 70000, apActive := false,
    mqttNeed := false }

/-! ## Telemetry JSON builder (`main.py`, lines 606-635) -/

/-- Serialization of a string value (device identities and reply strings
contain no characters that need JSON escaping). -/
def jsonQuote (s : String) : String := "\x22" ++ s ++ "\x22"

/-- `ujson.dumps(esp)`: the diagnostics object, fields in construction
order; `usage` is the `json_memory_usage` field. -/
def dumps_esp (mac : String) (rssi : Int) (freeHeap : Nat) (usage : Nat) (frag : Nat)
    (answer : String) : String :=
  "\x7b\x22Device_name\x22: " ++ jsonQuote mac ++
  ", \x22Wifi_RSSI\x22: " ++ toString rssi ++
  ", \x22sw_version\x22: \x228.9\x22, \x22Free_Heap\x22: " ++ toString freeHeap ++
  ", \x22json_memory_usage\x22: " ++ toString usage ++
  ", \x22HEAP_Fragmentation\x22: " ++ toString frag ++
  ", \x22type\x22: \x22L\x22, \x22answer\x22: " ++ jsonQuote answer ++ "\x7d"

/-- The top-level concatenation of `build_json`: exactly the three members
`EspData`, `DeviceData` and `LiveData`. -/
def build_json_top (espStr devStr liveStr : String) : String :=
  "\x7b\x22EspData\x22:" ++ espStr ++ ",\x22DeviceData\x22:" ++ devStr ++
  ",\x22LiveData\x22:" ++ liveStr ++ "\x7d"

/-- The value stored into the `json_memory_usage` field: the length of the
first serialization pass, in which that field is still 0. -/
def build_json_reported (mac : String) (rssi : Int) (freeHeap : Nat) (frag : Nat)
    (answer : String) (devStr liveStr : String) : Nat :=
  (build_json_top (dumps_esp mac rssi freeHeap 0 frag answer) devStr liveStr).length

/-- `build_json`: serialize once with `json_memory_usage = 0`, record that
length into the field, serialize again. `devStr`/`liveStr` are the dumps of
the two snapshots. -/
def build_json (mac : String) (rssi : Int) (freeHeap : Nat) (frag : Nat)
    (answer : String) (devStr liveStr : String) : String :=
  build_json_top
    (dumps_esp mac rssi freeHeap (build_json_reported mac rssi freeHeap frag answer devStr liveStr)
      frag answer)
    devStr liveStr

end DongleEsp32

namespace DongleEsp32

/-! ## Lemmas about the CRC helpers -/

theorem and_255_lt (x : Nat) : x &&& 0xFF < 256 :=
  Nat.lt_succ_of_le Nat.and_le_right

theorem and_255_eq_mod (x : Nat) : x &&& 0xFF = x % 256 := by
  have h := Nat.and_pow_two_sub_one_eq_mod x 8
  norm_num at h
  exact h

theorem calibrate_of_lt {x : Nat} (hx : x < 256) :
    calibrate_crc_byte x = if x = 0x28 ∨ x = 0x0D ∨ x = 0x0A then x + 1 else x := by
  unfold calibrate_crc_byte
  rcases Decidable.em (x = 0x28 ∨ x = 0x0D ∨ x = 0x0A) with h | h
  · simp only [if_pos h]
    rcases h with h | h | h <;> subst h <;> decide
  · simp only [if_neg h, and_255_eq_mod, Nat.mod_eq_of_lt hx]

theorem calibrate_ne_reserved {x : Nat} (hx : x < 256) :
    calibrate_crc_byte x ≠ 0x28 ∧ calibrate_crc_byte x ≠ 0x0D ∧ calibrate_crc_byte x ≠ 0x0A := by
  rw [calibrate_of_lt hx]
  rcases Decidable.em (x = 0x28 ∨ x = 0x0D ∨ x = 0x0A) with h | h
  · simp only [if_pos h]
    rcases h with h | h | h <;> subst h <;> refine ⟨?_, ?_, ?_⟩ <;> decide
  · push_neg at h
    simp only [if_neg, h, not_false_iff]
    exact ⟨h.1, h.2.1, h.2.2⟩

theorem calibrate_eq_zero_iff {x : Nat} (hx : x < 256) :
    calibrate_crc_byte x = 0 ↔ x = 0 := by
  rw [calibrate_of_lt hx]
  rcases Decidable.em (x = 0x28 ∨ x = 0x0D ∨ x = 0x0A) with h | h
  · simp only [if_pos h]
    constructor
    · intro h0; omega
    · intro h0; subst h0; simp at h
  · simp [if_neg h]

theorem crc16_lt (p : List Nat) : crc16_ccitt_raw p < 65536 := by
  unfold crc16_ccitt_raw
  have h : (List.foldl crcStep 0 p) &&& 0xFFFF ≤ 0xFFFF := Nat.and_le_right
  omega

theorem verify_rx_crc_eq (p : List Nat) (rh rl : Nat) :
    verify_rx_crc p rh rl =
      if ((compute_tx_crc_bytes p).1 = 0 ∧ (compute_tx_crc_bytes p).2 = 0) ∨
          (rh = 0 ∧ rl = 0) then false
      else decide ((compute_tx_crc_bytes p).1 = rh ∧ (compute_tx_crc_bytes p).2 = rl) :=
  rfl

theorem tx_bytes_zero_iff (p : List Nat) :
    (compute_tx_crc_bytes p).1 = 0 ∧ (compute_tx_crc_bytes p).2 = 0 ↔
      crc16_ccitt_raw p = 0 := by
  unfold compute_tx_crc_bytes
  rw [calibrate_eq_zero_iff (and_255_lt (crc16_ccitt_raw p >>> 8)),
      calibrate_eq_zero_iff (and_255_lt (crc16_ccitt_raw p))]
  rw [and_255_eq_mod, and_255_eq_mod, Nat.shiftRight_eq_div_pow]
  have := crc16_lt p
  constructor
  · intro ⟨h1, h2⟩; omega
  · intro h; omega

end DongleEsp32

namespace DongleEsp32

/-! ## Claim C1 -/

/-- C1: for every payload byte sequence, each of the two adjusted checksum
bytes produced by `_compute_tx_crc_bytes` (CRC-16/CCITT plus per-byte
calibration) differs from all three reserved framing bytes `0x28`, `0x0D`
and `0x0A`. -/
theorem tx_crc_bytes_avoid_framing (payload : List Nat) :
    (compute_tx_crc_bytes payload).1 ≠ 0x28 ∧ (compute_tx_crc_bytes payload).1 ≠ 0x0D ∧
    (compute_tx_crc_bytes payload).1 ≠ 0x0A ∧ (compute_tx_crc_bytes payload).2 ≠ 0x28 ∧
    (compute_tx_crc_bytes payload).2 ≠ 0x0D ∧ (compute_tx_crc_bytes payload).2 ≠ 0x0A := by
  unfold compute_tx_crc_bytes
  have h1 := calibrate_ne_reserved (and_255_lt (crc16_ccitt_raw payload >>> 8))
  have h2 := calibrate_ne_reserved (and_255_lt (crc16_ccitt_raw payload))
  exact ⟨h1.1, h1.2.1, h1.2.2, h2.1, h2.2.1, h2.2.2⟩

/-! ## Claim C2 -/

/-- C2 counterexample: the round-trip/bit-flip claim fails on the code at two
explicit inputs. First, the empty payload has CRC `0x0000`, so verifying its
own freshly computed checksum bytes returns false (the zero guard fires).
Second, `collisionPayloadFlipped` differs from `collisionPayload` in exactly
one bit (bit 6 of byte 0), yet verifying the flipped payload against the
original payload's checksum bytes returns true, because calibration maps the
raw CRCs `0x0D28` and `0x0E29` to the same adjusted byte pair. -/
theorem crc_roundtrip_claim_counterexample :
    verify_rx_crc [] (compute_tx_crc_bytes []).1 (compute_tx_crc_bytes []).2 = false
    ∧ collisionPayloadFlipped =
        collisionPayload.set 0 ((collisionPayload.getD 0 0) ^^^ 0x40)
    ∧ verify_rx_crc collisionPayloadFlipped
        (compute_tx_crc_bytes collisionPayload).1
        (compute_tx_crc_bytes collisionPayload).2 = true := by
  refine ⟨by decide, by decide, by decide⟩

/-- C2 amended: encoding a payload and verifying its own checksum succeeds for
every payload whose raw CRC-16 is nonzero (a zero CRC — for example the empty
payload — is rejected by the zero-checksum guard); and replacing the payload
while keeping the original checksum bytes makes verification fail whenever the
replacement's two adjusted checksum bytes differ from the original's. A
single-bit flip does not always change the adjusted bytes: calibration
collisions such as `0x0D28` versus `0x0E29` defeat it. -/
theorem crc_roundtrip_verified (p : List Nat) :
    (crc16_ccitt_raw p ≠ 0 →
      verify_rx_crc p (compute_tx_crc_bytes p).1 (compute_tx_crc_bytes p).2 = true)
    ∧ (∀ q : List Nat, compute_tx_crc_bytes q ≠ compute_tx_crc_bytes p →
      verify_rx_crc q (compute_tx_crc_bytes p).1 (compute_tx_crc_bytes p).2 = false) := by
  constructor
  · intro hnz
    rw [verify_rx_crc_eq, if_neg, decide_eq_true_eq]
    · exact ⟨rfl, rfl⟩
    · rintro (h | h)
      · exact hnz ((tx_bytes_zero_iff p).mp h)
      · exact hnz ((tx_bytes_zero_iff p).mp h)
  · intro q hq
    rw [verify_rx_crc_eq]
    by_cases hz : ((compute_tx_crc_bytes q).1 = 0 ∧ (compute_tx_crc_bytes q).2 = 0) ∨
        ((compute_tx_crc_bytes p).1 = 0 ∧ (compute_tx_crc_bytes p).2 = 0)
    · rw [if_pos hz]
    · rw [if_neg hz, decide_eq_false_iff_not]
      intro ⟨h1, h2⟩
      exact hq (Prod.ext h1 h2)

/-- C2 amended, witness: the payload `QPI` (bytes `[81, 80, 73]`) has nonzero
CRC and round-trips; the payload `[1]` has different adjusted checksum bytes
and is rejected against the `QPI` checksum. -/
theorem crc_roundtrip_verified_witness :
    crc16_ccitt_raw [81, 80, 73] ≠ 0
    ∧ verify_rx_crc [81, 80, 73] (compute_tx_crc_bytes [81, 80, 73]).1
        (compute_tx_crc_bytes [81, 80, 73]).2 = true
    ∧ compute_tx_crc_bytes [1] ≠ compute_tx_crc_bytes [81, 80, 73]
    ∧ verify_rx_crc [1] (compute_tx_crc_bytes [81, 80, 73]).1
        (compute_tx_crc_bytes [81, 80, 73]).2 = false :=
  ⟨by decide, (crc_roundtrip_verified [81, 80, 73]).1 (by decide), by decide,
   (crc_roundtrip_verified [81, 80, 73]).2 [1] (by decide)⟩

/-! ## Claim C10 -/

/-- C10: the receive verifier returns false whenever both received checksum
bytes are zero, and whenever the payload's computed adjusted checksum bytes
are both zero — a frame whose correct CRC is `0x0000` is always rejected even
when its checksum bytes match. -/
theorem verify_rx_crc_rejects_zero (p : List Nat) (rh rl : Nat) :
    (rh = 0 ∧ rl = 0 → verify_rx_crc p rh rl = false)
    ∧ (compute_tx_crc_bytes p = (0, 0) → verify_rx_crc p rh rl = false) := by
  constructor
  · intro ⟨h1, h2⟩
    rw [verify_rx_crc_eq, if_pos (Or.inr ⟨h1, h2⟩)]
  · intro hp
    rw [verify_rx_crc_eq, if_pos (Or.inl ⟨by rw [hp], by rw [hp]⟩)]

/-- C10 witness: the empty payload has CRC `0x0000`, so its computed adjusted
checksum bytes are `(0, 0)`; frames carrying checksum bytes `(0, 0)` and
frames whose computed bytes are `(0, 0)` are both rejected. -/
theorem verify_rx_crc_rejects_zero_witness :
    ((0 : Nat) = 0 ∧ (0 : Nat) = 0)
    ∧ verify_rx_crc [] 0 0 = false
    ∧ compute_tx_crc_bytes [] = (0, 0)
    ∧ verify_rx_crc [] 1 2 = false :=
  ⟨⟨rfl, rfl⟩, (verify_rx_crc_rejects_zero [] 0 0).1 ⟨rfl, rfl⟩, by decide,
   (verify_rx_crc_rejects_zero [] 1 2).2 (by decide)⟩

end DongleEsp32

namespace DongleEsp32

/-! ## Lemmas about the serial engine -/

theorem snapSet_other {m : Snapshot} {k v k' : String} (h : k' ≠ k) :
    snapSet m k v k' = m k' := by
  unfold snapSet
  rw [if_neg h]

theorem snapPop_other {m : Snapshot} {k k' : String} (h : k' ≠ k) :
    snapPop m k k' = m k' := by
  unfold snapPop
  rw [if_neg h]

theorem storeWrites_other {keep : Bool} {name cmd ans : String} {tgt : Snapshot} {k : String}
    (hk1 : k ≠ name) (hk2 : k ≠ cmd) :
    storeWrites keep name cmd ans tgt k = tgt k := by
  unfold storeWrites
  split_ifs with h1 h2 h3
  · rw [snapSet_other (show k ≠ "QPIGS" by rw [← h1.1]; exact hk2),
        snapSet_other hk2, snapSet_other hk1]
  · rw [snapSet_other (show k ≠ "QPIGS" by rw [← h1.1]; exact hk2), snapSet_other hk1]
  · rw [snapSet_other hk2, snapSet_other hk1]
  · rw [snapSet_other hk1]

theorem store_answer_other {s : EngineState} {name cmd ans : String} {static : Bool}
    {k : String} (hk1 : k ≠ name) (hk2 : k ≠ cmd) :
    (store_answer s name cmd ans static).devicedata k = s.devicedata k ∧
    (store_answer s name cmd ans static).livedata k = s.livedata k := by
  unfold store_answer
  split_ifs with h
  · exact ⟨storeWrites_other hk1 hk2, rfl⟩
  · exact ⟨rfl, storeWrites_other hk1 hk2⟩

theorem step_throttled {t : Nat} {env : String → String} {s : EngineState}
    (h : ticksDiff t s.last_at < (s.delay_ms : Int)) :
    step t env s = (s, false, []) := by
  unfold step
  rw [if_pos h]

theorem mark_ok_devicedata (s : EngineState) : (mark_ok s).devicedata = s.devicedata := rfl

theorem mark_ok_livedata (s : EngineState) : (mark_ok s).livedata = s.livedata := rfl

theorem step_custom_flags {t : Nat} {env : String → String} {s : EngineState} {c : String}
    (heff : ¬ ticksDiff t s.last_at < (s.delay_ms : Int)) (hc : customActive s = some c) :
    (step t env s).2.2 = [(customAlias s c, c)] ∧ (step t env s).2.1 = true ∧
    (step t env s).1.request_static = true ∧ (step t env s).1.request_counter = 0 ∧
    (step t env s).1.custom_cmd = none ∧ (step t env s).1.custom_name = none := by
  simp only [step, hc, if_neg heff]
  exact ⟨trivial, trivial, trivial, trivial, trivial, trivial⟩

theorem step_custom_invalid_snaps {t : Nat} {env : String → String} {s : EngineState}
    {c : String} (heff : ¬ ticksDiff t s.last_at < (s.delay_ms : Int))
    (hc : customActive s = some c) (hans : answerOk (env c) = false) :
    (step t env s).1.devicedata = s.devicedata ∧ (step t env s).1.livedata = s.livedata := by
  simp only [step, hc, if_neg heff, hans, Bool.false_eq_true, if_false]
  exact ⟨rfl, rfl⟩

theorem step_custom_valid_snaps {t : Nat} {env : String → String} {s : EngineState}
    {c k : String} (heff : ¬ ticksDiff t s.last_at < (s.delay_ms : Int))
    (hc : customActive s = some c) (hans : answerOk (env c) = true)
    (hk1 : k ≠ customAlias s c) (hk2 : k ≠ c) :
    (step t env s).1.devicedata k = s.devicedata k ∧
    (step t env s).1.livedata k = s.livedata k := by
  simp only [step, hc, if_neg heff, hans, if_true]
  constructor
  · split_ifs <;> simp only [mark_ok_devicedata] <;> exact (store_answer_other hk1 hk2).1
  · split_ifs with h
    · simp only [mark_ok_livedata]
      rw [snapPop_other hk2]
      exact (store_answer_other hk1 hk2).2
    · simp only [mark_ok_livedata]
      exact (store_answer_other hk1 hk2).2

theorem step_seq_invalid {t : Nat} {env : String → String} {s : EngineState}
    (heff : ¬ ticksDiff t s.last_at < (s.delay_ms : Int)) (hc : customActive s = none)
    (hcnt : s.request_counter < (activeSeq s).length)
    (hans : answerOk (env (seqItemAt s).2) = false) :
    step t env s = ({ s with request_counter := s.request_counter + 1,
                             conn_fail := s.conn_fail + 1,
                             last_at := t,
                             connection := decide (s.conn_fail + 1 < 10) },
                    true, [seqItemAt s]) := by
  cases hb : s.request_static with
  | true =>
    rw [activeSeq, if_pos hb] at hcnt
    rw [seqItemAt, activeSeq, if_pos hb] at hans
    simp only [step, hc, if_neg heff, hb, if_true, if_pos hcnt, hans, Bool.false_eq_true,
      if_false, stepFinish, seqItemAt, activeSeq]
    simp [mark_fail, hb]
  | false =>
    rw [activeSeq, if_neg (by rw [hb]; exact Bool.false_ne_true)] at hcnt
    rw [seqItemAt, activeSeq, if_neg (by rw [hb]; exact Bool.false_ne_true)] at hans
    simp only [step, hc, if_neg heff, hb, Bool.false_eq_true, if_false, if_pos hcnt, hans,
      stepFinish, seqItemAt, activeSeq]
    simp [mark_fail, hb]

theorem step_phase_flip {t : Nat} {env : String → String} {s : EngineState}
    (heff : ¬ ticksDiff t s.last_at < (s.delay_ms : Int)) (hc : customActive s = none)
    (hcnt : ¬ s.request_counter < (activeSeq s).length) :
    step t env s = ({ s with request_static := !s.request_static,
                             request_counter := 0,
                             last_at := t,
                             connection := decide (s.conn_fail < 10) },
                    true, []) := by
  cases hb : s.request_static with
  | true =>
    rw [activeSeq, if_pos hb] at hcnt
    simp only [step, hc, if_neg heff, hb, if_true, if_neg hcnt, stepFinish]
    simp [hb]
  | false =>
    rw [activeSeq, if_neg (by rw [hb]; exact Bool.false_ne_true)] at hcnt
    simp only [step, hc, if_neg heff, hb, Bool.false_eq_true, if_false, if_neg hcnt, stepFinish]
    simp [hb]

theorem step_seq_valid_snaps {t : Nat} {env : String → String} {s : EngineState} {k : String}
    (heff : ¬ ticksDiff t s.last_at < (s.delay_ms : Int)) (hc : customActive s = none)
    (hcnt : s.request_counter < (activeSeq s).length)
    (hans : answerOk (env (seqItemAt s).2) = true)
    (hk1 : k ≠ (seqItemAt s).1) (hk2 : k ≠ (seqItemAt s).2) :
    (step t env s).1.devicedata k = s.devicedata k ∧
    (step t env s).1.livedata k = s.livedata k := by
  cases hb : s.request_static with
  | true =>
    rw [activeSeq, if_pos hb] at hcnt
    rw [seqItemAt, activeSeq, if_pos hb] at hans hk1 hk2
    simp only [step, hc, if_neg heff, hb, if_true, if_pos hcnt, stepFinish]
    rw [if_pos hans]
    simp only [mark_ok_devicedata, mark_ok_livedata]
    exact ⟨(store_answer_other hk1 hk2).1, (store_answer_other hk1 hk2).2⟩
  | false =>
    rw [activeSeq, if_neg (by rw [hb]; exact Bool.false_ne_true)] at hcnt
    rw [seqItemAt, activeSeq, if_neg (by rw [hb]; exact Bool.false_ne_true)] at hans hk1 hk2
    simp only [step, hc, if_neg heff, hb, Bool.false_eq_true, if_false, if_pos hcnt, stepFinish]
    rw [if_pos hans]
    simp only [mark_ok_devicedata, mark_ok_livedata]
    exact ⟨(store_answer_other hk1 hk2).1, (store_answer_other hk1 hk2).2⟩

theorem step_seq_issued {t : Nat} {env : String → String} {s : EngineState}
    (heff : ¬ ticksDiff t s.last_at < (s.delay_ms : Int)) (hc : customActive s = none)
    (hcnt : s.request_counter < (activeSeq s).length) :
    (step t env s).2.2 = [seqItemAt s] := by
  cases hb : s.request_static with
  | true =>
    rw [activeSeq, if_pos hb] at hcnt
    simp only [step, hc, if_neg heff, hb, if_true, if_pos hcnt, stepFinish, seqItemAt, activeSeq]
  | false =>
    rw [activeSeq, if_neg (by rw [hb]; exact Bool.false_ne_true)] at hcnt
    simp only [step, hc, if_neg heff, hb, Bool.false_eq_true, if_false, if_pos hcnt, stepFinish,
      seqItemAt, activeSeq]

/-! ## Claim C3 -/

/-- C3: a snapshot entry is only ever written or removed by a step whose
issued command got a validly checksummed, non-NAK reply, and only under that
command's alias key or raw wire-command key; a step whose reply classifies as
`NAK` or checksum error changes neither the device snapshot nor the live
snapshot, so an invalid reply after a valid one leaves the stored value
unchanged. -/
theorem snapshot_only_written_by_valid_reply (t : Nat) (env : String → String) (s : EngineState) :
    ((∀ a c, (step t env s).2.2 = [(a, c)] → answerOk (env c) = false) →
      (step t env s).1.devicedata = s.devicedata ∧ (step t env s).1.livedata = s.livedata)
    ∧ (∀ k, ((step t env s).1.devicedata k ≠ s.devicedata k ∨
             (step t env s).1.livedata k ≠ s.livedata k) →
        ∃ a c, (step t env s).2.2 = [(a, c)] ∧ answerOk (env c) = true ∧ (k = a ∨ k = c)) := by
  by_cases heff : ticksDiff t s.last_at < (s.delay_ms : Int)
  · rw [step_throttled heff]
    constructor
    · intro _; exact ⟨rfl, rfl⟩
    · intro k hk; rcases hk with h | h <;> exact absurd rfl h
  · cases hcust : customActive s with
    | some c =>
      obtain ⟨hiss, -, -, -, -, -⟩ := @step_custom_flags t env s c heff hcust
      by_cases hans : answerOk (env c) = true
      · constructor
        · intro hinv
          have hfalse := hinv (customAlias s c) c hiss
          rw [hans] at hfalse
          exact absurd hfalse (by decide)
        · intro k hk
          refine ⟨customAlias s c, c, hiss, hans, ?_⟩
          by_contra hcon
          push_neg at hcon
          obtain ⟨hd, hl⟩ := step_custom_valid_snaps heff hcust hans hcon.1 hcon.2
          rcases hk with h | h
          · exact h hd
          · exact h hl
      · have hans' : answerOk (env c) = false := by
          revert hans; cases answerOk (env c) <;> simp
        obtain ⟨hd, hl⟩ := step_custom_invalid_snaps heff hcust hans'
        constructor
        · intro _; exact ⟨hd, hl⟩
        · intro k hk
          rcases hk with h | h
          · exact absurd (congrFun hd k) h
          · exact absurd (congrFun hl k) h
    | none =>
      by_cases hcnt : s.request_counter < (activeSeq s).length
      · have hiss := @step_seq_issued t env s heff hcust hcnt
        by_cases hans : answerOk (env (seqItemAt s).2) = true
        · constructor
          · intro hinv
            have hfalse := hinv (seqItemAt s).1 (seqItemAt s).2 hiss
            rw [hans] at hfalse
            exact absurd hfalse (by decide)
          · intro k hk
            refine ⟨(seqItemAt s).1, (seqItemAt s).2, hiss, hans, ?_⟩
            by_contra hcon
            push_neg at hcon
            obtain ⟨hd, hl⟩ := step_seq_valid_snaps heff hcust hcnt hans hcon.1 hcon.2
            rcases hk with h | h
            · exact h hd
            · exact h hl
        · have hans' : answerOk (env (seqItemAt s).2) = false := by
            revert hans; cases answerOk (env (seqItemAt s).2) <;> simp
          have heq := step_seq_invalid heff hcust hcnt hans'
          constructor
          · intro _; rw [heq]; exact ⟨rfl, rfl⟩
          · intro k hk; rw [heq] at hk; rcases hk with h | h <;> exact absurd rfl h
      · have heq := @step_phase_flip t env s heff hcust hcnt
        constructor
        · intro _; rw [heq]; exact ⟨rfl, rfl⟩
        · intro k hk; rw [heq] at hk; rcases hk with h | h <;> exact absurd rfl h

/-- C3 witness: a concrete step whose only issued command is answered `NAK`
leaves both snapshots of the concrete state `ex4State` unchanged. -/
theorem snapshot_only_written_by_valid_reply_witness :
    (step 1000 nakEnv ex4State).1.devicedata = ex4State.devicedata ∧
    (step 1000 nakEnv ex4State).1.livedata = ex4State.livedata :=
  (snapshot_only_written_by_valid_reply 1000 nakEnv ex4State).1 (fun _ _ _ => rfl)

/-! ## Claim C5 -/

/-- C5: whenever a custom-command request is pending (truthy) at an effective
step, that step issues exactly the custom command and no sequence command,
and after it completes — replied valid or classified `NAK`/checksum error
alike — the phase is reset to static with sequence position 0 and the pending
request is cleared. -/
theorem custom_command_preempts (t : Nat) (env : String → String) (s : EngineState)
    (c : String) (hc : customActive s = some c)
    (heff : ¬ ticksDiff t s.last_at < (s.delay_ms : Int)) :
    (step t env s).2.2 = [(customAlias s c, c)] ∧
    (step t env s).2.1 = true ∧
    (step t env s).1.request_static = true ∧
    (step t env s).1.request_counter = 0 ∧
    (step t env s).1.custom_cmd = none ∧
    (step t env s).1.custom_name = none :=
  step_custom_flags heff hc

/-- C5 witness: on the concrete state `ex5State` (pending custom command
`POP01` aliased `ANSWER`, mid-dynamic-phase) an effective step at tick 1000
issues only the custom command and resets the phase, even though its reply is
`NAK`. -/
theorem custom_command_preempts_witness :
    customActive ex5State = some "POP01"
    ∧ ¬ ticksDiff 1000 ex5State.last_at < (ex5State.delay_ms : Int)
    ∧ (step 1000 nakEnv ex5State).2.2 = [("ANSWER", "POP01")]
    ∧ (step 1000 nakEnv ex5State).1.request_static = true
    ∧ (step 1000 nakEnv ex5State).1.request_counter = 0
    ∧ (step 1000 nakEnv ex5State).1.custom_cmd = none := by
  have h := custom_command_preempts 1000 nakEnv ex5State "POP01" (by decide) (by decide)
  exact ⟨by decide, by decide, h.1, h.2.2.1, h.2.2.2.1, h.2.2.2.2.1⟩

/-! ## Lemmas about multi-step runs -/

theorem runSteps_append (l1 l2 : List Nat) (env : String → String) (s : EngineState) :
    runSteps (l1 ++ l2) env s = runSteps l2 env (runSteps l1 env s) := by
  induction l1 generalizing s with
  | nil => rfl
  | cons t ts ih =>
    show runSteps (ts ++ l2) env (step t env s).1 = _
    rw [ih]
    rfl

theorem allEffectiveB_append (l1 l2 : List Nat) (env : String → String) (s : EngineState) :
    allEffectiveB (l1 ++ l2) env s =
      (allEffectiveB l1 env s && allEffectiveB l2 env (runSteps l1 env s)) := by
  induction l1 generalizing s with
  | nil => rfl
  | cons t ts ih =>
    show (decide ((s.delay_ms : Int) ≤ ticksDiff t s.last_at) &&
        allEffectiveB (ts ++ l2) env (step t env s).1) =
      ((decide ((s.delay_ms : Int) ≤ ticksDiff t s.last_at) &&
        allEffectiveB ts env (step t env s).1) &&
        allEffectiveB l2 env (runSteps ts env (step t env s).1))
    rw [ih, Bool.and_assoc]

theorem nak_run {env : String → String} (henv : ∀ c, env c = "NAK") :
    ∀ (ts : List Nat) (s : EngineState),
      customActive s = none →
      allEffectiveB ts env s = true →
      s.request_counter + ts.length = (activeSeq s).length →
      (runSteps ts env s).request_static = s.request_static ∧
      (runSteps ts env s).request_counter = (activeSeq s).length ∧
      (runSteps ts env s).devicedata = s.devicedata ∧
      (runSteps ts env s).livedata = s.livedata ∧
      (runSteps ts env s).custom_cmd = s.custom_cmd ∧
      (runSteps ts env s).static_seq = s.static_seq ∧
      (runSteps ts env s).dynamic_seq = s.dynamic_seq := by
  intro ts
  induction ts with
  | nil =>
    intro s _ _ hcount
    simp only [List.length_nil, Nat.add_zero] at hcount
    exact ⟨rfl, hcount, rfl, rfl, rfl, rfl, rfl⟩
  | cons t ts ih =>
    intro s hcustom heff hcount
    simp only [allEffectiveB, Bool.and_eq_true, decide_eq_true_eq] at heff
    obtain ⟨heff1, heff2⟩ := heff
    have heffn : ¬ ticksDiff t s.last_at < (s.delay_ms : Int) := not_lt.mpr heff1
    have hcnt : s.request_counter < (activeSeq s).length := by
      simp only [List.length_cons] at hcount
      omega
    have hans : answerOk (env (seqItemAt s).2) = false := by rw [henv]; rfl
    have heq := step_seq_invalid heffn hcustom hcnt hans
    have hstep1 : (step t env s).1 =
        { s with request_counter := s.request_counter + 1,
                 conn_fail := s.conn_fail + 1,
                 last_at := t,
                 connection := decide (s.conn_fail + 1 < 10) } := by rw [heq]
    have harith : ((step t env s).1).request_counter + ts.length =
        (activeSeq (step t env s).1).length := by
      rw [hstep1]
      show s.request_counter + 1 + ts.length = (activeSeq s).length
      simp only [List.length_cons] at hcount
      omega
    have hcustom' : customActive (step t env s).1 = none := by
      rw [hstep1]
      exact hcustom
    have hys := ih ((step t env s).1) hcustom' heff2 harith
    refine ⟨hys.1.trans ?_, hys.2.1.trans ?_, hys.2.2.1.trans ?_, hys.2.2.2.1.trans ?_,
      hys.2.2.2.2.1.trans ?_, hys.2.2.2.2.2.1.trans ?_, hys.2.2.2.2.2.2.trans ?_⟩ <;>
      (rw [hstep1]; try rfl)

theorem customActive_congr {a b : EngineState} (h : a.custom_cmd = b.custom_cmd) :
    customActive a = customActive b := by
  unfold customActive
  rw [h]

theorem activeSeq_congr {a b : EngineState} (h1 : a.request_static = b.request_static)
    (h2 : a.static_seq = b.static_seq) (h3 : a.dynamic_seq = b.dynamic_seq) :
    activeSeq a = activeSeq b := by
  unfold activeSeq
  rw [h1, h2, h3]

/-! ## Claim C4 -/

/-- C4 counterexample: on the concrete state `ex4State` (static phase of
length 1, position 0, no custom command pending) with every reply `NAK`,
after exactly 1 effective step the engine is still in the static phase with
position 1; the claimed transition to the other phase has not happened. -/
theorem nak_sequence_claim_counterexample :
    ex4State.request_static = true ∧ ex4State.request_counter = 0 ∧
    customActive ex4State = none ∧
    (activeSeq ex4State).length = 1 ∧
    allEffectiveB [1000] nakEnv ex4State = true ∧
    (runSteps [1000] nakEnv ex4State).request_static = true ∧
    (runSteps [1000] nakEnv ex4State).request_counter = 1 :=
  ⟨rfl, rfl, rfl, rfl, by decide, by decide, by decide⟩

/-- C4 amended: for an active phase of length N with no custom command
pending, position 0 and every reply `NAK`, after exactly N effective steps
all N commands have been issued — the position equals N, the phase flag is
unchanged and no snapshot entry was written; the transition to the other
phase happens on the following (N+1-th) effective step, which issues no
command, resets the position to 0 and still writes nothing. -/
theorem nak_sequence_progression (env : String → String) (s : EngineState) (ts : List Nat)
    (henv : ∀ c, env c = "NAK") (hcustom : customActive s = none)
    (hzero : s.request_counter = 0)
    (hlen : ts.length = (activeSeq s).length + 1)
    (heff : allEffectiveB ts env s = true) :
    ((runSteps (ts.take (activeSeq s).length) env s).request_static = s.request_static ∧
     (runSteps (ts.take (activeSeq s).length) env s).request_counter = (activeSeq s).length ∧
     (runSteps (ts.take (activeSeq s).length) env s).devicedata = s.devicedata ∧
     (runSteps (ts.take (activeSeq s).length) env s).livedata = s.livedata) ∧
    ((runSteps ts env s).request_static = !s.request_static ∧
     (runSteps ts env s).request_counter = 0 ∧
     (runSteps ts env s).devicedata = s.devicedata ∧
     (runSteps ts env s).livedata = s.livedata) := by
  have htksplit : ts = ts.take (activeSeq s).length ++ ts.drop (activeSeq s).length :=
    (List.take_append_drop (activeSeq s).length ts).symm
  have hlen1 : (ts.take (activeSeq s).length).length = (activeSeq s).length := by
    rw [List.length_take]
    omega
  have heff' := heff
  rw [htksplit, allEffectiveB_append, Bool.and_eq_true] at heff'
  obtain ⟨heff1, heff2⟩ := heff'
  have hfirst := nak_run henv (ts.take (activeSeq s).length) s hcustom heff1
    (by rw [hlen1]; omega)
  refine ⟨⟨hfirst.1, hfirst.2.1, hfirst.2.2.1, hfirst.2.2.2.1⟩, ?_⟩
  obtain ⟨t', hdrop⟩ : ∃ a, ts.drop (activeSeq s).length = [a] :=
    List.length_eq_one.mp (by rw [List.length_drop]; omega)
  rw [hdrop] at heff2
  simp only [allEffectiveB, Bool.and_eq_true, decide_eq_true_eq, and_true] at heff2
  have heffn : ¬ ticksDiff t' (runSteps (ts.take (activeSeq s).length) env s).last_at <
      ((runSteps (ts.take (activeSeq s).length) env s).delay_ms : Int) := not_lt.mpr heff2
  have hc2 : customActive (runSteps (ts.take (activeSeq s).length) env s) = none :=
    (customActive_congr hfirst.2.2.2.2.1).trans hcustom
  have hseq : activeSeq (runSteps (ts.take (activeSeq s).length) env s) = activeSeq s :=
    activeSeq_congr hfirst.1 hfirst.2.2.2.2.2.1 hfirst.2.2.2.2.2.2
  have hcnt : ¬ (runSteps (ts.take (activeSeq s).length) env s).request_counter <
      (activeSeq (runSteps (ts.take (activeSeq s).length) env s)).length := by
    rw [hseq, hfirst.2.1]
    omega
  have heq := @step_phase_flip t' env (runSteps (ts.take (activeSeq s).length) env s) heffn hc2 hcnt
  have hs1 : (step t' env (runSteps (ts.take (activeSeq s).length) env s)).1 =
      { runSteps (ts.take (activeSeq s).length) env s with
          request_static := !(runSteps (ts.take (activeSeq s).length) env s).request_static,
          request_counter := 0,
          last_at := t',
          connection := decide ((runSteps (ts.take (activeSeq s).length) env s).conn_fail < 10) }
      := by rw [heq]
  have hfull : runSteps ts env s =
      (step t' env (runSteps (ts.take (activeSeq s).length) env s)).1 := by
    conv_lhs => rw [htksplit]
    rw [runSteps_append, hdrop]
    rfl
  refine ⟨?_, ?_, ?_, ?_⟩
  · rw [hfull, hs1]
    show (Bool.not (runSteps (ts.take (activeSeq s).length) env s).request_static) =
      Bool.not s.request_static
    rw [hfirst.1]
  · rw [hfull, hs1]
  · rw [hfull, hs1]
    show (runSteps (ts.take (activeSeq s).length) env s).devicedata = s.devicedata
    exact hfirst.2.2.1
  · rw [hfull, hs1]
    show (runSteps (ts.take (activeSeq s).length) env s).livedata = s.livedata
    exact hfirst.2.2.2.1

/-- C4 amended, witness: the concrete state `ex4State` (static phase of
length 1) under all-`NAK` replies and effective ticks 200 and 400: after one
step the position is 1 with the phase unchanged, after the second step the
phase has flipped with position 0, and both snapshots stay empty. -/
theorem nak_sequence_progression_witness :
    ((runSteps ([200, 400].take (activeSeq ex4State).length) nakEnv ex4State).request_static =
        ex4State.request_static ∧
     (runSteps ([200, 400].take (activeSeq ex4State).length) nakEnv ex4State).request_counter =
        (activeSeq ex4State).length ∧
     (runSteps ([200, 400].take (activeSeq ex4State).length) nakEnv ex4State).devicedata =
        ex4State.devicedata ∧
     (runSteps ([200, 400].take (activeSeq ex4State).length) nakEnv ex4State).livedata =
        ex4State.livedata) ∧
    ((runSteps [200, 400] nakEnv ex4State).request_static = !ex4State.request_static ∧
     (runSteps [200, 400] nakEnv ex4State).request_counter = 0 ∧
     (runSteps [200, 400] nakEnv ex4State).devicedata = ex4State.devicedata ∧
     (runSteps [200, 400] nakEnv ex4State).livedata = ex4State.livedata) :=
  nak_sequence_progression nakEnv ex4State [200, 400] (fun _ => rfl) rfl rfl (by decide)
    (by decide)

/-! ## Claim C6 -/

/-- C6: for a completed POST to `/wifisave` whose body parses to a field set,
presence of field `s` yields `200 OK` with the credential passed to
persistence and (when the write succeeds) a background connect; absence of
`s` yields `400 Bad Request` with nothing persisted. A non-POST request to
`/wifisave` is answered `405 Method Not Allowed`, and a POST whose media
type is neither urlencoded nor multipart is answered `415 Unsupported Media
Type`; with an accepted media type the server proceeds to read the body. -/
theorem wifisave_routing (method path ctype : String) (m : FieldSet) (saveOk : Bool) :
    (∀ sv, m "s" = some sv →
      http_body_finish (some m) saveOk =
        { status := "200 OK", persist := some (sv, (m "p").getD ""), bgConnect := saveOk })
    ∧ (m "s" = none →
      http_body_finish (some m) saveOk =
        { status := "400 Bad Request", persist := none, bgConnect := false })
    ∧ ((path = "/wifisave" ∨ path = "/wifisave/") → method ≠ "POST" →
        http_head_route method path ctype = .respond "405 Method Not Allowed")
    ∧ ((path = "/wifisave" ∨ path = "/wifisave/") → method = "POST" →
        ¬ (ctBase ctype = "application/x-www-form-urlencoded" ∨
           ctBase ctype = "multipart/form-data") →
        http_head_route method path ctype = .respond "415 Unsupported Media Type")
    ∧ ((path = "/wifisave" ∨ path = "/wifisave/") → method = "POST" →
        (ctBase ctype = "application/x-www-form-urlencoded" ∨
         ctBase ctype = "multipart/form-data") →
        http_head_route method path ctype = .readBody) := by
  refine ⟨?_, ?_, ?_, ?_, ?_⟩
  · intro sv hs
    simp only [http_body_finish, hs]
  · intro hs
    simp only [http_body_finish, hs]
  · intro hpath hm
    rcases hpath with h | h <;> subst h <;>
      (unfold http_head_route
       rw [if_neg (fun hcon => absurd hcon.1 (by decide)),
           if_neg (fun hcon => absurd hcon.1 (by decide)),
           if_neg (fun hcon => hcon (by decide)),
           if_pos hm])
  · intro hpath hm hct
    rcases hpath with h | h <;> subst h <;>
      (unfold http_head_route
       rw [if_neg (fun hcon => absurd hcon.1 (by decide)),
           if_neg (fun hcon => absurd hcon.1 (by decide)),
           if_neg (fun hcon => hcon (by decide)),
           if_neg (fun hcon => hcon hm),
           if_pos hct])
  · intro hpath hm hct
    rcases hpath with h | h <;> subst h <;>
      (unfold http_head_route
       rw [if_neg (fun hcon => absurd hcon.1 (by decide)),
           if_neg (fun hcon => absurd hcon.1 (by decide)),
           if_neg (fun hcon => hcon (by decide)),
           if_neg (fun hcon => hcon hm),
           if_neg (fun hcon => hcon hct)])

/-- C6 witness: concrete requests. A POST body parsed to `s=Home, p=pass123`
yields 200 with the credential persisted and the background connect
triggered; a body with no `s` yields 400; `GET /wifisave` yields 405;
`POST /wifisave` with `text/plain` yields 415; with urlencoded content the
server proceeds to the body. -/
theorem wifisave_routing_witness :
    ((fun k => if k = "s" then some "Home" else
        if k = "p" then some "pass123" else none : FieldSet) "s" = some "Home")
    ∧ http_body_finish (some (fun k => if k = "s" then some "Home" else
        if k = "p" then some "pass123" else none)) true =
      { status := "200 OK", persist := some ("Home", "pass123"), bgConnect := true }
    ∧ http_body_finish (some (fun _ => none)) true =
      { status := "400 Bad Request", persist := none, bgConnect := false }
    ∧ http_head_route "GET" "/wifisave" "" = .respond "405 Method Not Allowed"
    ∧ http_head_route "POST" "/wifisave" "text/plain" = .respond "415 Unsupported Media Type"
    ∧ http_head_route "POST" "/wifisave" "application/x-www-form-urlencoded" = .readBody :=
  ⟨by decide,
   ((wifisave_routing "POST" "/wifisave" "" (fun k => if k = "s" then some "Home" else
        if k = "p" then some "pass123" else none) true).1 "Home" (by decide)).trans (by decide),
   (wifisave_routing "POST" "/wifisave" "" (fun _ => none) true).2.1 rfl,
   (wifisave_routing "GET" "/wifisave" "" (fun _ => none) true).2.2.1 (Or.inl rfl) (by decide),
   (wifisave_routing "POST" "/wifisave" "text/plain" (fun _ => none) true).2.2.2.1
     (Or.inl rfl) rfl (by decide),
   (wifisave_routing "POST" "/wifisave" "application/x-www-form-urlencoded"
     (fun _ => none) true).2.2.2.2 (Or.inl rfl) rfl (by decide)⟩

/-! ## Claim C7 -/

/-- C7: an inbound broker message is accepted only when the control topic is
set, the topic matches it exactly and the stripped payload is non-empty;
while a custom-command request is outstanding the message is dropped with the
request state unchanged (no replacement, no queue); otherwise it becomes the
new custom-command request under the `ANSWER` alias with a deadline 5000 ms
ahead. -/
theorem control_message_policy (t m ct : String) (pending : Bool) (dl tnow : Nat) :
    ((mqtt_on_msg t m ct pending dl tnow).sent ≠ none →
      ct ≠ "" ∧ t = ct ∧ pyStrip m ≠ "" ∧ m ≠ "")
    ∧ (pending = true →
      mqtt_on_msg t m ct pending dl tnow =
        { pending := pending, deadline := dl, sent := none })
    ∧ (pending = false → ct ≠ "" → t = ct → pyStrip m ≠ "" →
      mqtt_on_msg t m ct pending dl tnow =
        { pending := true, deadline := ticksAdd tnow 5000,
          sent := some ("ANSWER", pyStrip m) }) := by
  unfold mqtt_on_msg
  split_ifs with h1 h2
  · refine ⟨fun hs => absurd rfl hs, fun _ => rfl, fun _ hct hteq hms => ?_⟩
    rcases h1 with h | h | h
    · exact absurd h hct
    · exact absurd hteq h
    · exact absurd h hms
  · refine ⟨fun hs => absurd rfl hs, fun _ => rfl, fun hp _ _ _ => ?_⟩
    rw [hp] at h2
    exact absurd h2 (by decide)
  · push_neg at h1
    obtain ⟨hct, hteq, hms⟩ := h1
    refine ⟨fun _ => ⟨hct, hteq, hms, ?_⟩, fun hp => ?_, fun _ _ _ _ => rfl⟩
    · intro hm
      rw [hm] at hms
      exact hms rfl
    · rw [hp] at h2
      exact absurd rfl h2

/-- C7 witness: with control topic `CT`, a matching message `QPI` while idle
becomes the pending request `(ANSWER, QPI)` with deadline 5000 ms ahead; the
same message while busy leaves the request state untouched; and an accepted
message implies topic match and non-empty payload. -/
theorem control_message_policy_witness :
    mqtt_on_msg "CT" " QPI " "CT" false 0 2000 =
      { pending := true, deadline := ticksAdd 2000 5000, sent := some ("ANSWER", "QPI") }
    ∧ mqtt_on_msg "CT" " QPI " "CT" true 77 2000 =
      { pending := true, deadline := 77, sent := none }
    ∧ (" QPI " : String) ≠ "" :=
  ⟨((control_message_policy "CT" " QPI " "CT" false 0 2000).2.2 rfl (by decide) rfl
      (by decide)).trans (by decide),
   (control_message_policy "CT" " QPI " "CT" true 77 2000).2.1 rfl,
   ((control_message_policy "CT" " QPI " "CT" false 0 2000).1 (by decide)).2.2.2⟩

/-! ## Lemmas about the wireless FSM -/

theorem ticksDiff_ticksAdd (a d : Nat) (hd : d ≤ 2 ^ 29) :
    ticksDiff a (ticksAdd a d) = -(d : Int) := by
  unfold ticksDiff ticksAdd TICKS_PERIOD TICKS_HALF
  omega

theorem fg_expiry (tnow : Nat) (lastSsid : Option String) (st : WifiState)
    (hm : st.mode = .connecting) (hexp : ticksDiff st.deadline tnow ≤ 0) :
    (wifi_fsm_step false tnow lastSsid st).1.mode = .ap ∧
    (wifi_fsm_step false tnow lastSsid st).1.retry_at = ticksAdd tnow 8000 ∧
    (wifi_fsm_step false tnow lastSsid st).2 = false := by
  obtain ⟨mode, dl, ra, apA, mq⟩ := st
  simp only at hm hexp
  subst hm
  have hgate : ¬ (0 : Int) ≤ ticksDiff tnow (ticksAdd tnow 8000) := by
    rw [ticksDiff_ticksAdd tnow 8000 (by norm_num)]
    norm_num
  by_cases hssid : ssidTruthy lastSsid = true <;>
  cases apA <;>
    simp [wifi_fsm_step, ap_watchdog, start_ap, hexp, hgate, hssid]

theorem sta_start (ss : String) (tnow : Nat) (st : WifiState) (hss : ss ≠ "") :
    (start_sta (some ss) tnow st).mode = .connecting ∧
    (start_sta (some ss) tnow st).deadline = ticksAdd tnow 20000 := by
  simp [start_sta, hss]

theorem sta_bg_start (ss : String) (tnow : Nat) (st : WifiState)
    (h1 : st.mode ≠ .connecting) (h2 : st.mode ≠ .connecting_ap) (hss : ss ≠ "") :
    (start_sta_bg (some ss) tnow st).mode = .connecting_ap ∧
    (start_sta_bg (some ss) tnow st).deadline = ticksAdd tnow 5000 := by
  simp [start_sta_bg, h1, h2, hss]

theorem bg_expiry (tnow : Nat) (lastSsid : Option String) (st : WifiState)
    (hm : st.mode = .connecting_ap) (hap : st.apActive = true)
    (hexp : ticksDiff st.deadline tnow ≤ 0) :
    (wifi_fsm_step false tnow lastSsid st).1.mode = .ap ∧
    (wifi_fsm_step false tnow lastSsid st).1.retry_at = ticksAdd tnow 9000 ∧
    (wifi_fsm_step false tnow lastSsid st).2 = false := by
  obtain ⟨mode, dl, ra, apA, mq⟩ := st
  simp only at hm hexp hap
  subst hm
  subst hap
  have hgate : ¬ (0 : Int) ≤ ticksDiff tnow (ticksAdd tnow 9000) := by
    rw [ticksDiff_ticksAdd tnow 9000 (by norm_num)]
    norm_num
  by_cases hssid : ssidTruthy lastSsid = true <;>
    simp [wifi_fsm_step, ap_watchdog, start_ap, hexp, hgate, hssid]

theorem link_loss_ap_up (tnow : Nat) (lastSsid : Option String) (st : WifiState)
    (hm : st.mode = .connected) (hap : st.apActive = true) :
    (wifi_fsm_step false tnow lastSsid st).1.mode = .ap ∧
    (wifi_fsm_step false tnow lastSsid st).1.retry_at = ticksAdd tnow 2000 ∧
    (wifi_fsm_step false tnow lastSsid st).2 = false := by
  obtain ⟨mode, dl, ra, apA, mq⟩ := st
  simp only at hm hap
  subst hm
  subst hap
  have hgate : ¬ (0 : Int) ≤ ticksDiff tnow (ticksAdd tnow 2000) := by
    rw [ticksDiff_ticksAdd tnow 2000 (by norm_num)]
    norm_num
  by_cases hssid : ssidTruthy lastSsid = true <;>
    simp [wifi_fsm_step, ap_watchdog, start_ap, hgate, hssid]

theorem bg_retry_throttle (tnow : Nat) (lastSsid : Option String) (st : WifiState)
    (hm : st.mode = .ap ∨ st.mode = .failed) (hap : st.apActive = true)
    (hssid : ssidTruthy lastSsid = true) :
    ((wifi_fsm_step false tnow lastSsid st).2 = true ↔ 0 ≤ ticksDiff tnow st.retry_at) ∧
    ((wifi_fsm_step false tnow lastSsid st).2 = true →
      (wifi_fsm_step false tnow lastSsid st).1.retry_at = ticksAdd tnow 10000 ∧
      (wifi_fsm_step false tnow lastSsid st).1.mode = .connecting_ap) := by
  obtain ⟨mode, dl, ra, apA, mq⟩ := st
  simp only at hm hap hssid ⊢
  subst hap
  obtain ⟨ss, hsome, hss⟩ : ∃ ss, lastSsid = some ss ∧ ss ≠ "" := by
    cases lastSsid with
    | none => simp [ssidTruthy] at hssid
    | some ss =>
      refine ⟨ss, rfl, ?_⟩
      simp [ssidTruthy] at hssid
      exact hssid
  subst hsome
  by_cases hgate : (0 : Int) ≤ ticksDiff tnow ra <;>
    rcases hm with h | h <;> subst h <;>
      simp [wifi_fsm_step, ap_watchdog, start_ap, start_sta_bg, ssidTruthy, hgate, hss]

/-! ## Claim C8 -/

/-- C8 counterexample: with the hotspot interface down, the hotspot watchdog
(which runs earlier in the same pass) preempts the claimed transitions. On
`ex8Loss` (link loss from the connected state, hotspot down, stale retry
timestamp) the pass fires an immediate background attempt and re-arms the
retry timestamp 10000 ms ahead — not 2000 ms as claimed. On `ex8BgExpiry` (a
background connect past its deadline, hotspot down) the watchdog flips the
mode to hotspot-active before the expiry branch runs, so the retry timestamp
is left at its old value instead of 9000 ms ahead. -/
theorem wifi_fsm_claim_counterexample :
    ex8Loss.mode = .connected
    ∧ (wifi_fsm_step false 50000 (some "Home") ex8Loss).2 = true
    ∧ (wifi_fsm_step false 50000 (some "Home") ex8Loss).1.retry_at = ticksAdd 50000 10000
    ∧ (wifi_fsm_step false 50000 (some "Home") ex8Loss).1.retry_at ≠ ticksAdd 50000 2000
    ∧ (wifi_fsm_step false 50000 (some "Home") ex8Loss).1.mode = .connecting_ap
    ∧ ex8BgExpiry.mode = .connecting_ap
    ∧ ticksDiff ex8BgExpiry.deadline 50000 ≤ 0
    ∧ (wifi_fsm_step false 50000 (some "Home") ex8BgExpiry).1.retry_at ≠ ticksAdd 50000 9000
    ∧ (wifi_fsm_step false 50000 (some "Home") ex8BgExpiry).1.mode = .ap :=
  ⟨rfl, by decide, by decide, by decide, by decide, rfl, by decide, by decide, by decide⟩

/-- C8 amended: a foreground connect sets a deadline 20 s ahead, and its
expiry yields hotspot-active with a retry 8 s later; a background connect
sets a deadline 5 s ahead, and — provided the hotspot interface is up, as in
normal background operation — its expiry schedules the retry 9 s later; link
loss from the connected state while the hotspot is up yields hotspot-active
with a retry 2 s later (with the hotspot down, the watchdog preempts these
reschedules); and from hotspot-active or failed with a saved nonempty
network name, a background attempt fires exactly when the retry timestamp
has been reached and re-arms it 10 s ahead, so scheduler-driven attempts
occur no more often than every 10 s. -/
theorem wifi_fsm_timing :
    (∀ (ss : String) (tnow : Nat) (st : WifiState), ss ≠ "" →
      (start_sta (some ss) tnow st).mode = .connecting ∧
      (start_sta (some ss) tnow st).deadline = ticksAdd tnow 20000)
    ∧ (∀ (tnow : Nat) (lastSsid : Option String) (st : WifiState),
        st.mode = .connecting → ticksDiff st.deadline tnow ≤ 0 →
        (wifi_fsm_step false tnow lastSsid st).1.mode = .ap ∧
        (wifi_fsm_step false tnow lastSsid st).1.retry_at = ticksAdd tnow 8000 ∧
        (wifi_fsm_step false tnow lastSsid st).2 = false)
    ∧ (∀ (ss : String) (tnow : Nat) (st : WifiState),
        st.mode ≠ .connecting → st.mode ≠ .connecting_ap → ss ≠ "" →
        (start_sta_bg (some ss) tnow st).mode = .connecting_ap ∧
        (start_sta_bg (some ss) tnow st).deadline = ticksAdd tnow 5000)
    ∧ (∀ (tnow : Nat) (lastSsid : Option String) (st : WifiState),
        st.mode = .connecting_ap → st.apActive = true →
        ticksDiff st.deadline tnow ≤ 0 →
        (wifi_fsm_step false tnow lastSsid st).1.mode = .ap ∧
        (wifi_fsm_step false tnow lastSsid st).1.retry_at = ticksAdd tnow 9000 ∧
        (wifi_fsm_step false tnow lastSsid st).2 = false)
    ∧ (∀ (tnow : Nat) (lastSsid : Option String) (st : WifiState),
        st.mode = .connected → st.apActive = true →
        (wifi_fsm_step false tnow lastSsid st).1.mode = .ap ∧
        (wifi_fsm_step false tnow lastSsid st).1.retry_at = ticksAdd tnow 2000 ∧
        (wifi_fsm_step false tnow lastSsid st).2 = false)
    ∧ (∀ (tnow : Nat) (lastSsid : Option String) (st : WifiState),
        (st.mode = .ap ∨ st.mode = .failed) → st.apActive = true →
        ssidTruthy lastSsid = true →
        ((wifi_fsm_step false tnow lastSsid st).2 = true ↔ 0 ≤ ticksDiff tnow st.retry_at) ∧
        ((wifi_fsm_step false tnow lastSsid st).2 = true →
          (wifi_fsm_step false tnow lastSsid st).1.retry_at = ticksAdd tnow 10000 ∧
          (wifi_fsm_step false tnow lastSsid st).1.mode = .connecting_ap)) :=
  ⟨sta_start, fg_expiry, sta_bg_start, bg_expiry, link_loss_ap_up, bg_retry_throttle⟩

/-- C8 amended, witness: the five timing constants and the attempt gate,
each evaluated at a concrete state and clock. -/
theorem wifi_fsm_timing_witness :
    (start_sta (some "Home") 100 ex8Loss).deadline = ticksAdd 100 20000
    ∧ (wifi_fsm_step false 30000 (some "Home")
        ⟨.connecting, 1000, 0, false, false⟩).1.retry_at = ticksAdd 30000 8000
    ∧ (start_sta_bg (some "Home") 100 ex8Loss).deadline = ticksAdd 100 5000
    ∧ (wifi_fsm_step false 30000 (some "Home")
        ⟨.connecting_ap, 1000, 70000, true, false⟩).1.retry_at = ticksAdd 30000 9000
    ∧ (wifi_fsm_step false 30000 (some "Home")
        ⟨.connected, 0, 0, true, false⟩).1.retry_at = ticksAdd 30000 2000
    ∧ (wifi_fsm_step false 30000 (some "Home") ⟨.ap, 0, 500, true, false⟩).2 = true
    ∧ (wifi_fsm_step false 30000 (some "Home")
        ⟨.ap, 0, 500, true, false⟩).1.retry_at = ticksAdd 30000 10000 :=
  ⟨(wifi_fsm_timing.1 "Home" 100 ex8Loss (by decide)).2,
   (wifi_fsm_timing.2.1 30000 (some "Home") ⟨.connecting, 1000, 0, false, false⟩ rfl
     (by decide)).2.1,
   (wifi_fsm_timing.2.2.1 "Home" 100 ex8Loss (by decide) (by decide) (by decide)).2,
   (wifi_fsm_timing.2.2.2.1 30000 (some "Home") ⟨.connecting_ap, 1000, 70000, true, false⟩
     rfl rfl (by decide)).2.1,
   (wifi_fsm_timing.2.2.2.2.1 30000 (some "Home") ⟨.connected, 0, 0, true, false⟩
     rfl rfl).2.1,
   (wifi_fsm_timing.2.2.2.2.2 30000 (some "Home") ⟨.ap, 0, 500, true, false⟩
     (Or.inl rfl) rfl (by decide)).1.mpr (by decide),
   ((wifi_fsm_timing.2.2.2.2.2 30000 (some "Home") ⟨.ap, 0, 500, true, false⟩
     (Or.inl rfl) rfl (by decide)).2
     ((wifi_fsm_timing.2.2.2.2.2 30000 (some "Home") ⟨.ap, 0, 500, true, false⟩
       (Or.inl rfl) rfl (by decide)).1.mpr (by decide))).1⟩

/-! ## Claim C9 -/

theorem dumps_len (mac : String) (rssi : Int) (freeHeap : Nat) (frag : Nat)
    (answer devStr liveStr : String) :
    ∀ u : Nat,
      (build_json_top (dumps_esp mac rssi freeHeap u frag answer) devStr liveStr).length +
        (toString (0 : Nat)).length =
      (build_json_top (dumps_esp mac rssi freeHeap 0 frag answer) devStr liveStr).length +
        (toString u).length := by
  intro u
  simp only [build_json_top, dumps_esp, jsonQuote, String.length_append]
  omega

/-- C9 counterexample: at a concrete diagnostics state with empty snapshots,
the self-reported size field of the telemetry JSON differs from the byte
length of the JSON output in which it appears (the second serialization grew
because the size value is wider than the 0 placeholder measured). -/
theorem build_json_size_claim_counterexample :
    build_json_reported "AABBCCDD" (-70) 50000 40 "0" "\x7b\x7d" "\x7b\x7d" ≠
      (build_json "AABBCCDD" (-70) 50000 40 "0" "\x7b\x7d" "\x7b\x7d").length := by
  decide

/-- C9 amended: the telemetry JSON is an object with exactly the three
members `EspData`, `DeviceData` and `LiveData`; the size field inside the
diagnostics member equals the byte length of the first serialization pass (in
which the field is 0), and the emitted JSON is longer than the reported size
by the width of the reported number minus the one-character placeholder. -/
theorem build_json_shape_and_size (mac : String) (rssi : Int) (freeHeap : Nat) (frag : Nat)
    (answer devStr liveStr : String) :
    build_json mac rssi freeHeap frag answer devStr liveStr =
      build_json_top
        (dumps_esp mac rssi freeHeap
          (build_json_reported mac rssi freeHeap frag answer devStr liveStr) frag answer)
        devStr liveStr
    ∧ (build_json mac rssi freeHeap frag answer devStr liveStr).length + 1 =
      build_json_reported mac rssi freeHeap frag answer devStr liveStr +
        (toString (build_json_reported mac rssi freeHeap frag answer devStr liveStr)).length := by
  refine ⟨rfl, ?_⟩
  have key := dumps_len mac rssi freeHeap frag answer devStr liveStr
    (build_json_reported mac rssi freeHeap frag answer devStr liveStr)
  have h0 : (toString (0 : Nat)).length = 1 := rfl
  unfold build_json build_json_reported at *
  omega

end DongleEsp32
